import Mathlib

/-!
Shallow embedding of `CleanUpMyDownloadsWin.py`.

Modelling conventions:
- Python `float` timestamps are modelled as `ℚ` (exact decimal seconds).
- Python `int` is modelled as `ℤ`.
- `datetime.now()` is modelled by an explicit clock: functions that read the
  wall clock take the current time as a parameter; a whole run takes a clock
  stream `ℕ → ℚ` and threads an index, consuming one reading per
  `datetime.now()` call in the source.
- A Python `dict` is an association list with in-place replacement on an
  existing key (Python dict assignment semantics: last value wins).
- CSV cells are strings in the source; a cell is modelled by its numeric
  content: `Cell.int n` is a string spelling an integer literal, `Cell.float q`
  a string spelling a float literal that is not an integer literal,
  `Cell.malformed` a non-numeric string. Python `float(s)` succeeds on the
  first two, `int(s)` only on the first; both raise on a malformed string,
  modelled by `Option`.
- Filesystem mutations (`Path.rename`, `send2trash`) are modelled as emitted
  effect values (`FsOp`), not performed.
-/

/-- Module-level constant `IMPORTANCE_THRESHOLD = 3`. -/
def IMPORTANCE_THRESHOLD : ℤ := 3

/-- Module-level constant `TIME_LIMIT_IN_DAYS = 30`. -/
def TIME_LIMIT_IN_DAYS : ℤ := 30

/-- Module-level constant `ARCHIVE_PATH`. -/
def ARCHIVE_PATH : String := "D:\\Archives"

/-- Model of `datetime.fromtimestamp`: timestamps and naive datetimes are both modelled
as rational seconds, so the conversion is the identity. -/
def datetimeFromTimestamp (t : ℚ) : ℚ := t

/-- Model of `timedelta(days=d)`, measured in seconds. -/
def timedeltaDays (d : ℤ) : ℚ := (d : ℚ) * 86400

/-- Source class `EntityData`: metadata snapshot of one filesystem entity
(`path`, `birthdate`, `last_access`, `importance_level`). -/
structure EntityData where
  path : String
  birthdate : ℚ
  last_access : ℚ
  importance_level : ℤ
deriving DecidableEq, Repr

/-- Property `EntityData.is_deprecated`: `datetime.now() >
datetime.fromtimestamp(self.last_access) + timedelta(days=TIME_LIMIT_IN_DAYS)`.
The call to `datetime.now()` is the explicit parameter `now`. -/
def EntityData.is_deprecated (e : EntityData) (now : ℚ) : Bool :=
  decide (now > datetimeFromTimestamp e.last_access + timedeltaDays TIME_LIMIT_IN_DAYS)

/-- Property `EntityData.is_important`:
`int(self.importance_level) >= IMPORTANCE_THRESHOLD`. -/
def EntityData.is_important (e : EntityData) : Bool :=
  decide (e.importance_level ≥ IMPORTANCE_THRESHOLD)

/-- One CSV data cell, abstracted by its numeric content (see file header). -/
inductive Cell where
  | int (n : ℤ)
  | float (q : ℚ)
  | malformed
deriving DecidableEq, Repr

/-- Python `float(s)` on a stored cell: succeeds on integer and float
literals, raises (`none`) on a non-numeric string. -/
def pyFloat : Cell → Option ℚ
  | Cell.int n => some (n : ℚ)
  | Cell.float q => some q
  | Cell.malformed => none

/-- Python `int(s)` on a stored cell: succeeds only on integer literals. -/
def pyInt : Cell → Option ℤ
  | Cell.int n => some n
  | Cell.float _ => none
  | Cell.malformed => none

/-- One CSV data row, keyed by the header fields. -/
structure CsvRow where
  path : String
  birthdate : Cell
  last_access : Cell
  importance_level : Cell
deriving DecidableEq, Repr

/-- A CSV file: header line plus data rows. -/
structure CsvFile where
  header : List String
  rows : List CsvRow
deriving DecidableEq, Repr

/-- The fixed header written by `Memory.update` and expected by
`Memory.load_last_metadata`. -/
def csvHeader : List String := ["path", "birthdate", "last_access", "importance_level"]

/-- The `EntityData.__init__` coercions applied to one loaded CSV row:
`str(path)`, `float(birthdate)`, `float(last_access)`, `int(importance_level)`.
A failing coercion raises, modelled by `none`. -/
def mkEntityData (path : String) (birthdate last_access importance_level : Cell) :
    Option EntityData :=
  match pyFloat birthdate, pyFloat last_access, pyInt importance_level with
  | some b, some la, some imp => some ⟨path, b, la, imp⟩
  | _, _, _ => none

/-- Python dict assignment `m[k] = v`: replace in place if the key is present,
append otherwise; a later assignment to the same key wins. -/
def dictInsert (m : List (String × EntityData)) (k : String) (v : EntityData) :
    List (String × EntityData) :=
  if m.any (fun kv => kv.1 = k) then
    m.map (fun kv => if kv.1 = k then (k, v) else kv)
  else
    m ++ [(k, v)]

/-- Python dict lookup `m.get(k)` / `m[k]`. -/
def dictGet (m : List (String × EntityData)) (k : String) : Option EntityData :=
  (m.find? (fun kv => kv.1 = k)).map (fun kv => kv.2)

/-- Source class `Memory`: the in-memory side of the persistence layer, its
`last_metadata` dict (entity path ↦ `EntityData`). The CSV file path held by
the Python object is I/O plumbing; load and update act on `CsvFile` values. -/
structure Memory where
  last_metadata : List (String × EntityData)
deriving DecidableEq, Repr

/-- Row loop of `Memory.load_last_metadata`: read every row of the CSV file, build an
`EntityData` per row (coercions in the constructor; a failure propagates and
nothing is returned), index by path with later duplicate paths overwriting.
`csv.DictReader` keys each row by the header line; a file without the expected
header raises a `KeyError`, modelled as failure. -/
def loadRows : List (String × EntityData) → List CsvRow → Option (List (String × EntityData))
  | m, [] => some m
  | m, r :: rs =>
    match mkEntityData r.path r.birthdate r.last_access r.importance_level with
    | none => none
    | some e => loadRows (dictInsert m r.path e) rs

/-- See `loadRows`; this is the whole of `Memory.load_last_metadata`. -/
def load_last_metadata (f : CsvFile) : Option (List (String × EntityData)) :=
  if f.header = csvHeader then loadRows [] f.rows else none

/-- The CSV row written for one entity by `Memory.update`:
`str(float)` spells a float literal, `str(int)` an integer literal. -/
def rowOf (e : EntityData) : CsvRow :=
  ⟨e.path, Cell.float e.birthdate, Cell.float e.last_access, Cell.int e.importance_level⟩

/-- Method `Memory.update`: truncate the file, write the fixed header, then one row
per entity whose `is_deprecated` is false, in list order. `now` is the wall
clock at the time of the write (the source queries `datetime.now()` inside
each `is_deprecated` call during the loop). -/
def Memory.update (now : ℚ) (entities : List EntityData) : CsvFile :=
  ⟨csvHeader, (entities.filter (fun e => !e.is_deprecated now)).map rowOf⟩

/-- Result of `entity.stat()`: the filesystem metadata read by `entity.stat()`. -/
structure Stat where
  st_birthtime : ℚ
  st_atime : ℚ
deriving DecidableEq, Repr

/-- Function `extract_data`: build a fresh `EntityData` from stat metadata with
`importance_level = 0`. -/
def extract_data (path : String) (st : Stat) : EntityData :=
  ⟨path, st.st_birthtime, st.st_atime, 0⟩

/-- Function `update_data`: in-place mutation of `data.importance_level` is modelled by
returning the (possibly) updated record together with the untouched `Memory`.
If no previous metadata exists for the path, return unchanged; if the new
`last_access` is strictly greater than the old one, set `importance_level`
to the previous record's `importance_level + 1`; otherwise unchanged. -/
def update_data (data : EntityData) (db : Memory) : EntityData × Memory :=
  match dictGet db.last_metadata data.path with
  | none => (data, db)
  | some last_metadata =>
    if data.last_access > last_metadata.last_access then
      ({ data with importance_level := last_metadata.importance_level + 1 }, db)
    else
      (data, db)

/-- The record produced for one entity by the triage pipeline of
`browse_files`: `extract_data` then `update_data`. -/
def triage_result (db : Memory) (path : String) (st : Stat) : EntityData :=
  (update_data (extract_data path st) db).1

/-- A filesystem mutation emitted by the run. `move` is
`Path(entity.path).rename(Path(f"{ARCHIVE_PATH}/{datetime.now()}") / src.name)`:
the destination is kept structured as (archive root, timestamp naming the
subdirectory, entity base name). `trash` is `send2trash`. -/
inductive FsOp where
  | move (src : String) (root : String) (stamp : ℚ) (name : String)
  | trash (src : String)
deriving DecidableEq, Repr

/-- Split a character list on a separator, `String.splitOn` style: the
result always has at least one (possibly empty) group. -/
def splitOnChar (sep : Char) : List Char → List (List Char)
  | [] => [[]]
  | c :: cs =>
    match splitOnChar sep cs with
    | [] => [[]]
    | g :: gs => if c = sep then [] :: g :: gs else (c :: g) :: gs

/-- Model of `Path(p).name`: the final path component. -/
def baseName (p : String) : String :=
  String.mk ((splitOnChar '/' p.data).getLastD p.data)

/-- Function `archive_data`: move the entity under a subdirectory of `ARCHIVE_PATH`
named by `datetime.now()` (the explicit parameter `now`, read at this call),
keeping the entity's base name. -/
def archive_data (now : ℚ) (entity : EntityData) : FsOp :=
  FsOp.move entity.path ARCHIVE_PATH now (baseName entity.path)

/-- Function `delete_data`: send the entity to the recoverable trash. -/
def delete_data (entity : EntityData) : FsOp :=
  FsOp.trash entity.path

/-- The per-entity body of the `browse_files` loop: build the triaged record,
then archive when deprecated and important, trash when deprecated and not
important, do nothing otherwise. `tNow` is the `datetime.now()` read by
`entity.is_deprecated`; `tArchive` the one read inside `archive_data`
(only consumed on the archive branch). -/
def triage_step (tNow tArchive : ℚ) (db : Memory) (path : String) (st : Stat) :
    EntityData × List FsOp :=
  let e := triage_result db path st
  (e, if e.is_deprecated tNow then
        (if e.is_important then [archive_data tArchive e] else [delete_data e])
      else [])

/-- Number of `datetime.now()` calls made for one entity in the loop body:
one in `is_deprecated`, plus one in `archive_data` on the archive branch. -/
def nowCalls (tNow : ℚ) (e : EntityData) : ℕ :=
  if e.is_deprecated tNow && e.is_important then 2 else 1

/-- The `browse_files` loop over the already-joined entity paths and their
stat data: clock readings are consumed in program order, the emitted
filesystem operations and the accumulated `entities_metadata` list are
returned. The final `db.update(entities_metadata)` write is `Memory.update`. -/
def browse_files (clock : ℕ → ℚ) (db : Memory) :
    ℕ → List (String × Stat) → List FsOp × List EntityData
  | _, [] => ([], [])
  | i, (p, st) :: rest =>
    let step := triage_step (clock i) (clock (i + 1)) db p st
    let next := browse_files clock db (i + nowCalls (clock i) step.1) rest
    (step.2 ++ next.1, step.1 :: next.2)

/-- Boolean test on a stored row: it decodes (through the constructor
coercions) to a record that is not stale at `now`. -/
def rowNotStale (now : ℚ) (r : CsvRow) : Bool :=
  match mkEntityData r.path r.birthdate r.last_access r.importance_level with
  | some e => !e.is_deprecated now
  | none => false

/-- Boolean test on an emitted operation: a move goes under the archive root
and keeps the source's base name (trash operations pass trivially). -/
def moveWellFormed : FsOp → Bool
  | FsOp.move src root _ name => decide (root = ARCHIVE_PATH) && decide (name = baseName src)
  | FsOp.trash _ => true

/-- Spec scenario for entity B: previous record with importance 3, last
access 60 days into the epoch; the run happens at day 100, so the last
access is 40 days old. -/
def entityB_db : Memory := ⟨[("D:/dl/b", ⟨"D:/dl/b", 0, 5184000, 3⟩)]⟩

/-- Wall clock of the entity-B scenario: day 100 in seconds. -/
def entityB_now : ℚ := 8640000

/-- Entity B processed by one loop body: the fresh stat reports the same
last access as the previous record. -/
def entityB_step : EntityData × List FsOp :=
  triage_step entityB_now entityB_now entityB_db "D:/dl/b" ⟨0, 5184000⟩

/-- A stored row whose birthdate cell is a non-numeric string. -/
def badRow : CsvRow := ⟨"x", Cell.malformed, Cell.int 0, Cell.int 0⟩

/-- Previous snapshot for the two-archive run: both entities have importance
2 and a last access 50 days into the epoch. -/
def c8_db : Memory :=
  ⟨[("D:/dl/a", ⟨"D:/dl/a", 0, 4320000, 2⟩), ("D:/dl/b", ⟨"D:/dl/b", 0, 4320000, 2⟩)]⟩

/-- A strictly increasing wall clock around day 200: consecutive
`datetime.now()` calls return distinct instants, as real microsecond clocks
do. -/
def c8_clock : ℕ → ℚ
  | 0 => 17280000
  | 1 => 17280001
  | 2 => 17280002
  | _ => 17280003

/-- Two entities whose fresh last access (day 160) is newer than the stored
one (day 50) but still more than 30 days before day 200: both accrue to
importance 3 and both get archived in the same run. -/
def c8_entities : List (String × Stat) :=
  [("D:/dl/a", ⟨0, 13824000⟩), ("D:/dl/b", ⟨0, 13824000⟩)]

/-! Helper lemmas shared by the claim theorems. -/

/-- The path written into a row is the entity's path. -/
theorem rowOf_path (e : EntityData) : (rowOf e).path = e.path := rfl

/-- The constructor coercions invert the row encoding exactly. -/
theorem mkEntityData_rowOf (e : EntityData) :
    mkEntityData (rowOf e).path (rowOf e).birthdate (rowOf e).last_access
      (rowOf e).importance_level = some e := by
  cases e
  rfl

/-- Loading rows that all come from `rowOf` rebuilds the dict of the encoded
entities, later paths overwriting earlier ones. -/
theorem loadRows_map_rowOf (es : List EntityData) : ∀ m : List (String × EntityData),
    loadRows m (es.map rowOf) = some (es.foldl (fun m2 e => dictInsert m2 e.path e) m) := by
  induction es with
  | nil => intro m; rfl
  | cons e es ih =>
    intro m
    simp only [List.map_cons, loadRows, mkEntityData_rowOf, List.foldl_cons, rowOf_path]
    exact ih (dictInsert m e.path e)

/-- A row with any non-numeric cell fails the constructor coercions. -/
theorem mkEntityData_malformed (p : String) (b la imp : Cell)
    (h : b = Cell.malformed ∨ la = Cell.malformed ∨ imp = Cell.malformed) :
    mkEntityData p b la imp = none := by
  cases b <;> cases la <;> cases imp <;> simp_all [mkEntityData, pyFloat, pyInt]

/-- A malformed row anywhere in the list makes the whole row loop fail. -/
theorem loadRows_malformed (rs : List CsvRow) (r : CsvRow)
    (hbad : r.birthdate = Cell.malformed ∨ r.last_access = Cell.malformed ∨
      r.importance_level = Cell.malformed) :
    ∀ m : List (String × EntityData), r ∈ rs → loadRows m rs = none := by
  induction rs with
  | nil => intro m h; cases h
  | cons r0 rs ih =>
    intro m hmem
    rcases List.mem_cons.mp hmem with rfl | hmem2
    · simp only [loadRows, mkEntityData_malformed r.path r.birthdate r.last_access
        r.importance_level hbad]
    · cases h0 : mkEntityData r0.path r0.birthdate r0.last_access r0.importance_level with
      | none => simp only [loadRows, h0]
      | some e =>
        simp only [loadRows, h0]
        exact ih _ hmem2

/-! Claim theorems. -/

/-- C6: a record is stale iff the current time is strictly greater than its
last access plus the retention window; at exactly the window boundary it is
not stale, and the same record queried at a later time can become stale
(staleness is a function of the query-time clock, not of the record alone). -/
theorem c6_staleness_boundary (e : EntityData) (now : ℚ) :
    (e.is_deprecated now = true ↔ now > e.last_access + timedeltaDays TIME_LIMIT_IN_DAYS)
    ∧ e.is_deprecated (e.last_access + timedeltaDays TIME_LIMIT_IN_DAYS) = false
    ∧ e.is_deprecated (e.last_access + timedeltaDays TIME_LIMIT_IN_DAYS + 1) = true := by
  refine ⟨?_, ?_, ?_⟩
  · simp [EntityData.is_deprecated, datetimeFromTimestamp]
  · simp [EntityData.is_deprecated, datetimeFromTimestamp]
  · simp only [EntityData.is_deprecated, datetimeFromTimestamp, decide_eq_true_eq]
    linarith

/-- C9: `update_data` changes at most the `importance_level` of the record it
is given: the record's path, birthdate and last access are returned unchanged,
and the `Memory` (its loaded `last_metadata` dict and every record in it) is
returned exactly as passed. -/
theorem c9_update_data_frame (d : EntityData) (db : Memory) :
    (update_data d db).1.path = d.path
    ∧ (update_data d db).1.birthdate = d.birthdate
    ∧ (update_data d db).1.last_access = d.last_access
    ∧ (update_data d db).2 = db := by
  cases h : dictGet db.last_metadata d.path with
  | none => simp [update_data, h]
  | some lm =>
    by_cases hlt : d.last_access > lm.last_access
    · simp [update_data, h, hlt]
    · simp [update_data, h, hlt]

/-- C4: the triage pipeline record (`extract_data` then `update_data`) obeys
the three-case accrual rule: a fresh record starts at importance 0; when the
path is absent from the loaded snapshot the fresh record is returned
untouched (importance stays 0); when present and the fresh last access is
strictly newer, importance becomes the previous importance plus one; when
present and not strictly newer, the fresh record is returned untouched. -/
theorem c4_three_case_accrual (db : Memory) (p : String) (st : Stat) :
    (extract_data p st).importance_level = 0
    ∧ (dictGet db.last_metadata p = none → triage_result db p st = extract_data p st)
    ∧ (∀ lm : EntityData, dictGet db.last_metadata p = some lm →
        st.st_atime > lm.last_access →
        (triage_result db p st).importance_level = lm.importance_level + 1)
    ∧ (∀ lm : EntityData, dictGet db.last_metadata p = some lm →
        st.st_atime ≤ lm.last_access →
        triage_result db p st = extract_data p st) := by
  refine ⟨rfl, ?_, ?_, ?_⟩
  · intro h
    simp [triage_result, update_data, extract_data, h]
  · intro lm h hgt
    simp [triage_result, update_data, extract_data, h, hgt]
  · intro lm h hle
    simp [triage_result, update_data, extract_data, h, not_lt.mpr hle]

/-- C4 witness: the three cases at concrete inputs. -/
theorem c4_three_case_accrual_witness :
    triage_result ⟨[]⟩ "x" ⟨0, 1⟩ = extract_data "x" ⟨0, 1⟩
    ∧ (triage_result ⟨[("y", ⟨"y", 0, 5, 2⟩)]⟩ "y" ⟨0, 6⟩).importance_level = 2 + 1
    ∧ triage_result ⟨[("y", ⟨"y", 0, 5, 2⟩)]⟩ "y" ⟨0, 5⟩ = extract_data "y" ⟨0, 5⟩ :=
  ⟨(c4_three_case_accrual ⟨[]⟩ "x" ⟨0, 1⟩).2.1 rfl,
   (c4_three_case_accrual ⟨[("y", ⟨"y", 0, 5, 2⟩)]⟩ "y" ⟨0, 6⟩).2.2.1 ⟨"y", 0, 5, 2⟩
     (by decide) (by decide),
   (c4_three_case_accrual ⟨[("y", ⟨"y", 0, 5, 2⟩)]⟩ "y" ⟨0, 5⟩).2.2.2 ⟨"y", 0, 5, 2⟩
     (by decide) (by decide)⟩

/-- C1 counterexample: an entity recorded with importance 3 whose fresh stat
reports the same last access ends the pipeline with importance 0, which is
neither the previous importance nor the previous importance plus one, and is
a decrease. -/
theorem c1_counterexample :
    (triage_result ⟨[("f", ⟨"f", 0, 100, 3⟩)]⟩ "f" ⟨0, 100⟩).importance_level = 0
    ∧ ¬((triage_result ⟨[("f", ⟨"f", 0, 100, 3⟩)]⟩ "f" ⟨0, 100⟩).importance_level = 3
        ∨ (triage_result ⟨[("f", ⟨"f", 0, 100, 3⟩)]⟩ "f" ⟨0, 100⟩).importance_level = 3 + 1)
    ∧ (triage_result ⟨[("f", ⟨"f", 0, 100, 3⟩)]⟩ "f" ⟨0, 100⟩).importance_level < 3 := by
  decide

/-- C1 amended: for an entity present in the previous snapshot, the pipeline
importance is the previous importance plus one when the fresh last access is
strictly newer, and otherwise resets to 0 (the fresh record's cold-start
value); in particular it can decrease. -/
theorem c1_amended_importance (db : Memory) (p : String) (st : Stat) (lm : EntityData)
    (h : dictGet db.last_metadata p = some lm) :
    (triage_result db p st).importance_level =
      if st.st_atime > lm.last_access then lm.importance_level + 1 else 0 := by
  by_cases hgt : st.st_atime > lm.last_access
  · simp [triage_result, update_data, extract_data, h, hgt]
  · simp [triage_result, update_data, extract_data, h, hgt]

/-- C1 amended witness: the reset branch at a concrete input. -/
theorem c1_amended_importance_witness :
    (triage_result ⟨[("f", ⟨"f", 0, 100, 3⟩)]⟩ "f" ⟨0, 100⟩).importance_level =
      if (100 : ℚ) > 100 then 3 + 1 else 0 :=
  c1_amended_importance ⟨[("f", ⟨"f", 0, 100, 3⟩)]⟩ "f" ⟨0, 100⟩ ⟨"f", 0, 100, 3⟩ (by decide)

/-- C5: the per-entity loop body performs no filesystem operation exactly
when the triaged record is not stale; when it is stale, it performs exactly
one operation, an archive move when the record is important and a trash
otherwise — never both, never neither. -/
theorem c5_dispatch_exclusive (t1 t2 : ℚ) (db : Memory) (p : String) (st : Stat) :
    ((triage_step t1 t2 db p st).2 = [] ↔ (triage_result db p st).is_deprecated t1 = false)
    ∧ ((triage_step t1 t2 db p st).2 = [archive_data t2 (triage_result db p st)]
        ↔ ((triage_result db p st).is_deprecated t1 = true
            ∧ (triage_result db p st).is_important = true))
    ∧ ((triage_step t1 t2 db p st).2 = [delete_data (triage_result db p st)]
        ↔ ((triage_result db p st).is_deprecated t1 = true
            ∧ (triage_result db p st).is_important = false)) := by
  cases hd : (triage_result db p st).is_deprecated t1 <;>
    cases hi : (triage_result db p st).is_important <;>
      simp [triage_step, hd, hi, archive_data, delete_data]

/-- C2 amended: entity B (threshold 3, 30-day window, previous importance 3,
last access 40 days ago and unchanged by the fresh stat) ends the run with
importance 0, is stale and NOT valuable, and is therefore soft-deleted, not
archived. -/
theorem c2_amended_scenario :
    entityB_step.1.importance_level = 0
    ∧ entityB_step.1.is_deprecated entityB_now = true
    ∧ entityB_step.1.is_important = false
    ∧ entityB_step.2 = [FsOp.trash "D:/dl/b"] := by
  have h1 : triage_result entityB_db "D:/dl/b" ⟨0, 5184000⟩ = ⟨"D:/dl/b", 0, 5184000, 0⟩ := by
    simp [triage_result, update_data, extract_data, dictGet, entityB_db, List.find?]
  have hdep : (⟨"D:/dl/b", 0, 5184000, 0⟩ : EntityData).is_deprecated entityB_now = true := by
    norm_num [EntityData.is_deprecated, datetimeFromTimestamp, timedeltaDays,
      TIME_LIMIT_IN_DAYS, entityB_now]
  have himp : (⟨"D:/dl/b", 0, 5184000, 0⟩ : EntityData).is_important = false := by decide
  refine ⟨?_, ?_, ?_, ?_⟩ <;>
    simp [entityB_step, triage_step, h1, hdep, himp, delete_data]

/-- C2 counterexample: in the entity-B scenario the claim's conclusion fails:
the final importance is not 3, and the single emitted operation is a trash,
not the archive move the claim predicts. -/
theorem c2_counterexample :
    entityB_step.1.importance_level ≠ 3
    ∧ entityB_step.2 = [FsOp.trash "D:/dl/b"]
    ∧ [FsOp.trash "D:/dl/b"] ≠ [archive_data entityB_now entityB_step.1] := by
  have h1 : triage_result entityB_db "D:/dl/b" ⟨0, 5184000⟩ = ⟨"D:/dl/b", 0, 5184000, 0⟩ := by
    simp [triage_result, update_data, extract_data, dictGet, entityB_db, List.find?]
  have hdep : (⟨"D:/dl/b", 0, 5184000, 0⟩ : EntityData).is_deprecated entityB_now = true := by
    norm_num [EntityData.is_deprecated, datetimeFromTimestamp, timedeltaDays,
      TIME_LIMIT_IN_DAYS, entityB_now]
  have himp : (⟨"D:/dl/b", 0, 5184000, 0⟩ : EntityData).is_important = false := by decide
  refine ⟨?_, ?_, ?_⟩ <;>
    simp [entityB_step, triage_step, h1, hdep, himp, delete_data, archive_data]

/-- C3: after `Memory.update`, the written snapshot has a row for a path iff
some entity in the given list has that path and is not stale at the write
time (so identities absent from the list are absent from the store), and
every written row decodes to a record that is not stale at the write time. -/
theorem c3_replace_filters_stale (now : ℚ) (l : List EntityData) (p : String) :
    ((∃ r ∈ (Memory.update now l).rows, r.path = p)
      ↔ ∃ e ∈ l, e.path = p ∧ e.is_deprecated now = false)
    ∧ (Memory.update now l).rows.all (rowNotStale now) = true := by
  constructor
  · constructor
    · rintro ⟨r, hr, hp⟩
      simp only [Memory.update, List.mem_map, List.mem_filter] at hr
      obtain ⟨e, ⟨he, hd⟩, rfl⟩ := hr
      exact ⟨e, he, by simpa [rowOf] using hp, by simpa using hd⟩
    · rintro ⟨e, he, hp, hd⟩
      refine ⟨rowOf e, ?_, by simpa [rowOf] using hp⟩
      simp only [Memory.update, List.mem_map, List.mem_filter]
      exact ⟨e, ⟨he, by simp [hd]⟩, rfl⟩
  · rw [List.all_eq_true]
    intro r hr
    simp only [Memory.update, List.mem_map, List.mem_filter] at hr
    obtain ⟨e, ⟨he, hd⟩, rfl⟩ := hr
    simp only [rowNotStale, mkEntityData_rowOf]
    simpa using hd

/-- C7: if any stored row has a non-numeric birthdate, last access or
importance cell, loading the snapshot fails outright: no partial mapping is
returned and no row is skipped. -/
theorem c7_malformed_row_fails_load (f : CsvFile) (r : CsvRow)
    (hmem : r ∈ f.rows)
    (hbad : r.birthdate = Cell.malformed ∨ r.last_access = Cell.malformed ∨
      r.importance_level = Cell.malformed) :
    load_last_metadata f = none := by
  by_cases h : f.header = csvHeader
  · simp [load_last_metadata, h, loadRows_malformed f.rows r hbad [] hmem]
  · simp [load_last_metadata, h]

/-- C7 witness: a one-row snapshot with a non-numeric birthdate fails to
load. -/
theorem c7_malformed_row_fails_load_witness :
    load_last_metadata ⟨csvHeader, [badRow]⟩ = none :=
  c7_malformed_row_fails_load ⟨csvHeader, [badRow]⟩ badRow (List.mem_singleton.mpr rfl)
    (Or.inl rfl)

/-- C10: writing a snapshot and loading it back round-trips: the written file
carries the fixed header, the load succeeds, and it returns exactly the dict
of the non-stale entities keyed by path with the last duplicate winning; for
an empty or all-stale list this yields an empty mapping. -/
theorem c10_roundtrip (now : ℚ) (l : List EntityData) :
    (Memory.update now l).header = csvHeader
    ∧ load_last_metadata (Memory.update now l)
      = some ((l.filter (fun e => !e.is_deprecated now)).foldl
          (fun m e => dictInsert m e.path e) []) := by
  refine ⟨rfl, ?_⟩
  have h : load_last_metadata (Memory.update now l)
      = loadRows [] ((l.filter (fun e => !e.is_deprecated now)).map rowOf) := by
    simp [load_last_metadata, Memory.update]
  rw [h, loadRows_map_rowOf]

/-- C8 counterexample: two entities archived by the same run are moved into
two differently named archive subdirectories, because the subdirectory is
stamped by the clock reading of each individual archive call. -/
theorem c8_counterexample :
    (browse_files c8_clock c8_db 0 c8_entities).1
      = [FsOp.move "D:/dl/a" ARCHIVE_PATH 17280001 "a",
         FsOp.move "D:/dl/b" ARCHIVE_PATH 17280003 "b"]
    ∧ (17280001 : ℚ) ≠ 17280003 := by
  constructor
  · have hA : triage_step 17280000 17280001 c8_db "D:/dl/a" ⟨0, 13824000⟩
        = (⟨"D:/dl/a", 0, 13824000, 3⟩, [FsOp.move "D:/dl/a" ARCHIVE_PATH 17280001 "a"]) := by
      have hb : baseName "D:/dl/a" = "a" := by decide
      have hd : dictGet c8_db.last_metadata "D:/dl/a" = some ⟨"D:/dl/a", 0, 4320000, 2⟩ := by
        simp [dictGet, c8_db, List.find?]
      norm_num [triage_step, triage_result, update_data, extract_data,
        EntityData.is_deprecated, datetimeFromTimestamp, timedeltaDays, TIME_LIMIT_IN_DAYS,
        EntityData.is_important, IMPORTANCE_THRESHOLD, archive_data, hb, hd]
    have hB : triage_step 17280002 17280003 c8_db "D:/dl/b" ⟨0, 13824000⟩
        = (⟨"D:/dl/b", 0, 13824000, 3⟩, [FsOp.move "D:/dl/b" ARCHIVE_PATH 17280003 "b"]) := by
      have hb : baseName "D:/dl/b" = "b" := by decide
      have hd : dictGet c8_db.last_metadata "D:/dl/b" = some ⟨"D:/dl/b", 0, 4320000, 2⟩ := by
        simp [dictGet, c8_db, List.find?]
      norm_num [triage_step, triage_result, update_data, extract_data,
        EntityData.is_deprecated, datetimeFromTimestamp, timedeltaDays, TIME_LIMIT_IN_DAYS,
        EntityData.is_important, IMPORTANCE_THRESHOLD, archive_data, hb, hd]
    have hnA : nowCalls 17280000 (⟨"D:/dl/a", 0, 13824000, 3⟩ : EntityData) = 2 := by
      norm_num [nowCalls, EntityData.is_deprecated, datetimeFromTimestamp, timedeltaDays,
        TIME_LIMIT_IN_DAYS, EntityData.is_important, IMPORTANCE_THRESHOLD]
    norm_num [c8_entities, browse_files, c8_clock, hA, hB, hnA]
  · norm_num

/-- C8 amended: every archive performed by a run moves the entity under the
archive root into a subdirectory named by the clock reading of that entity's
own archive call, preserving the entity's base name; as the counterexample
shows, archives at distinct clock readings within one run therefore land in
distinct subdirectories. -/
theorem c8_amended_archive_destination (clock : ℕ → ℚ) (db : Memory) (i : ℕ)
    (es : List (String × Stat)) :
    (browse_files clock db i es).1.all moveWellFormed = true := by
  induction es generalizing i with
  | nil => rfl
  | cons pst es ih =>
    obtain ⟨p, st⟩ := pst
    simp only [browse_files, List.all_append, Bool.and_eq_true, triage_step]
    refine ⟨?_, ih _⟩
    split
    · split
      · simp [moveWellFormed, archive_data]
      · simp [moveWellFormed, delete_data]
    · rfl
